import Mathlib

/-!
# Unhinged Cards form worker

A shallow embedding of `formStoreWorker/src/index.js`: the validator
`validateFormData`, the submission pipeline `handleFormSubmission`, the response
builders and the method router `fetch`, followed by the properties proved of them.

Modelling conventions.

* A JavaScript string is a Lean `String` (a sequence of code points); its
  `.length` is the number of UTF-16 code units, `jsLength`.
* A decoded field mapping is an object whose own properties hold strings; a
  property that is not there reads as `undefined`, here `none`.
* Awaited calls into the runtime (`request.json()`, `request.text()`, the D1
  statement) are the values they resolve to, or the message of the error they
  reject with; the handler returns its response together with the list of
  effects it performed, in order.
-/

namespace FormStoreWorker

/-! ## Strings and field mappings -/

/-- UTF-16 code units taken by one code point. -/
def utf16Size (c : Char) : Nat :=
  if c.toNat < 65536 then 1 else 2

/-- The `.length` of a JavaScript string: its number of UTF-16 code units. -/
def jsLength (s : String) : Nat :=
  (s.data.map utf16Size).sum

/-- An object whose own properties are strings, most recent assignment first. -/
structure FormData where
  props : List (String × String)
deriving Repr, DecidableEq

/-- Property read `data.k` (also `data[k]`): `none` stands for `undefined`. The
four names the worker reads are not properties of `Object.prototype`, so only own
properties matter. -/
def FormData.get (data : FormData) (k : String) : Option String :=
  data.props.lookup k

/-- Property write `data[k] = v` on an object created by `{}`. The key
`__proto__` reaches the setter inherited from `Object.prototype`, which ignores a
string, so no own property is created for it. -/
def FormData.set (data : FormData) (k v : String) : FormData :=
  if k = "__proto__" then data else ⟨(k, v) :: data.props⟩

/-- Truthiness of a value that is `undefined` or a string: only a non-empty
string is truthy. -/
def truthy : Option String → Bool
  | some s => decide (s ≠ "")
  | none => false

/-- The test `v.length > n` for a value that is `undefined` or a string. -/
def lengthExceeds : Option String → Nat → Bool
  | some s, n => decide (n < jsLength s)
  | none, _ => false

/-- The call `xs.includes(v)`: strict equality with one of the elements. -/
def includes (xs : List String) : Option String → Bool
  | some s => xs.contains s
  | none => false

/-! ## The validator -/

/-- Validation function for form data (`index.js`, lines 7-46). `errors.push(m)`
is `errors ++ [m]`. -/
def validateFormData (data : FormData) : List String :=
  let errors : List String := []
  -- Required field validation
  let errors :=
    if !truthy (data.get "tipo_carta") then
      errors ++ ["tipo_carta is required"]
    else if !includes ["negra", "blanca", "ambas"] (data.get "tipo_carta") then
      errors ++ ["tipo_carta must be 'negra', 'blanca', or 'ambas'"]
    else errors
  -- Content validation based on tipo_carta
  let errors :=
    if data.get "tipo_carta" = some "negra" ∧ !truthy (data.get "carta_negra") then
      errors ++ ["carta_negra is required when tipo_carta is 'negra'"]
    else errors
  let errors :=
    if data.get "tipo_carta" = some "blanca" ∧ !truthy (data.get "carta_blanca") then
      errors ++ ["carta_blanca is required when tipo_carta is 'blanca'"]
    else errors
  let errors :=
    if data.get "tipo_carta" = some "ambas" then
      if !truthy (data.get "carta_negra") ∧ !truthy (data.get "carta_blanca") then
        errors ++ ["At least one of carta_negra or carta_blanca is required when tipo_carta is 'ambas'"]
      else errors
    else errors
  -- Length validations
  let errors :=
    if truthy (data.get "carta_negra") ∧ lengthExceeds (data.get "carta_negra") 500 then
      errors ++ ["carta_negra must be 500 characters or less"]
    else errors
  let errors :=
    if truthy (data.get "carta_blanca") ∧ lengthExceeds (data.get "carta_blanca") 200 then
      errors ++ ["carta_blanca must be 200 characters or less"]
    else errors
  let errors :=
    if truthy (data.get "contexto") ∧ lengthExceeds (data.get "contexto") 1000 then
      errors ++ ["contexto must be 1000 characters or less"]
    else errors
  errors

/-! ## Values and responses -/

/-- JavaScript values as they occur in response bodies and bound parameters. -/
inductive JSValue where
  | undefined
  | null
  | bool (b : Bool)
  | number (n : Int)
  | string (s : String)
  | array (items : List JSValue)
  | object (props : List (String × JSValue))
deriving Repr

/-- A field of the mapping as a value: `undefined` when it is not there. -/
def fieldValue : Option String → JSValue
  | some s => .string s
  | none => .undefined

/-- The expression `v || null` for a field `v`. -/
def orNull (v : Option String) : JSValue :=
  if truthy v then fieldValue v else .null

/-- The expression `v || d` for a header value `v` (`null` when the header is
not there) and a string `d`. -/
def orDefault (v : Option String) (d : String) : String :=
  match v with
  | some s => if s ≠ "" then s else d
  | none => d

/-- A `Response`: `body` is the value handed to `JSON.stringify`, own properties in
insertion order, and `none` for the `null` body. -/
structure Response where
  status : Nat
  headers : List (String × String)
  body : Option JSValue

/-- Get CORS headers (lines 154-161). -/
def getCorsHeaders : List (String × String) :=
  [ ("Access-Control-Allow-Origin", "*"),
    ("Access-Control-Allow-Methods", "GET, POST, OPTIONS"),
    ("Access-Control-Allow-Headers", "Content-Type"),
    ("Access-Control-Max-Age", "86400") ]

/-- Handle CORS preflight requests (lines 114-119). -/
def handleOptions : Response :=
  { status := 200, headers := getCorsHeaders, body := none }

/-- Create success response with CORS headers (lines 122-130). -/
def createSuccessResponse (data : JSValue) : Response :=
  { status := 200
    headers := ("Content-Type", "application/json") :: getCorsHeaders
    body := some data }

/-- Property read `error.message` on a value that is not a string (the worker
passes strings and arrays only). -/
def messageOf : JSValue → JSValue
  | .object props => (props.lookup "message").getD .undefined
  | _ => .undefined

/-- Truthiness of a value. -/
def JSValue.truthy : JSValue → Bool
  | .undefined => false
  | .null => false
  | .bool b => b
  | .number n => decide (n ≠ 0)
  | .string s => decide (s ≠ "")
  | .array _ => true
  | .object _ => true

/-- Create error response with CORS headers (lines 133-151). The source gives
`status` the default 500 and `type` the default `"error"`; every call here passes
them. -/
def createErrorResponse (error : JSValue) (status : Nat) (type : String) : Response :=
  let errorData : List (String × JSValue) := [("success", .bool false)]
  let errorData :=
    if type = "validation" then
      errorData ++ [("errors", match error with
        | .array items => .array items
        | e => .array [e])]
    else
      errorData ++ [("error", match error with
        | .string s => .string s
        | e => if (messageOf e).truthy then messageOf e else .string "Unknown error")]
  { status := status
    headers := ("Content-Type", "application/json") :: getCorsHeaders
    body := some (.object errorData) }

/-! ## Request decoding -/

/-- The call `s.includes(sub)`: `sub` occurs in `s`. -/
def jsIncludes (s sub : String) : Bool :=
  s.data.tails.any (fun t => sub.data.isPrefixOf t)

/-- Split a list of characters at every occurrence of `sep`. -/
def splitChars (sep : Char) : List Char → List (List Char)
  | [] => [[]]
  | c :: cs =>
    if c = sep then [] :: splitChars sep cs
    else
      match splitChars sep cs with
      | [] => [[c]]
      | p :: ps => (c :: p) :: ps

/-- The call `s.split(sep)` for a one-character separator. -/
def jsSplit (s : String) (sep : Char) : List String :=
  (splitChars sep s.data).map String.mk

/-- The call `s.split(sep, limit)`: the string is split at every separator and
the first `limit` pieces are kept. -/
def jsSplitLimit (s : String) (sep : Char) (limit : Nat) : List String :=
  (jsSplit s sep).take limit

/-- The call `value.replace(/\+/g, ' ')`. -/
def replacePlus (value : String) : String :=
  String.mk (value.data.map (fun c => if c = '+' then ' ' else c))

/-- Value of a hexadecimal digit. -/
def hexDigit (c : Char) : Option Nat :=
  if '0' ≤ c ∧ c ≤ '9' then some (c.toNat - 48)
  else if 'a' ≤ c ∧ c ≤ 'f' then some (c.toNat - 87)
  else if 'A' ≤ c ∧ c ≤ 'F' then some (c.toNat - 55)
  else none

/-- Number of leading one bits of an octet. -/
def leadingOnes (b : Nat) : Nat :=
  if b < 128 then 0
  else if b < 192 then 1
  else if b < 224 then 2
  else if b < 240 then 3
  else if b < 248 then 4
  else 5

/-- An octet of the form `10xxxxxx`. -/
def isContinuation (b : Nat) : Bool :=
  decide (128 ≤ b ∧ b < 192)

/-- The code point a list of octets is the valid UTF-8 encoding of, if any: no
overlong form, no surrogate, nothing above U+10FFFF. -/
def utf8CodePoint : List Nat → Option Nat
  | [b0, b1] =>
    if 194 ≤ b0 ∧ b0 < 224 ∧ isContinuation b1 then
      some ((b0 - 192) * 64 + (b1 - 128))
    else none
  | [b0, b1, b2] =>
    let v := (b0 - 224) * 4096 + (b1 - 128) * 64 + (b2 - 128)
    if 224 ≤ b0 ∧ b0 < 240 ∧ isContinuation b1 ∧ isContinuation b2 ∧
        2048 ≤ v ∧ ¬ (55296 ≤ v ∧ v < 57344) then some v
    else none
  | [b0, b1, b2, b3] =>
    let v := (b0 - 240) * 262144 + (b1 - 128) * 4096 + (b2 - 128) * 64 + (b3 - 128)
    if 240 ≤ b0 ∧ b0 < 248 ∧ isContinuation b1 ∧ isContinuation b2 ∧ isContinuation b3 ∧
        65536 ≤ v ∧ v < 1114112 then some v
    else none
  | _ => none

/-- The message of the `URIError` raised by `decodeURIComponent`. -/
def uriMalformed : String := "URI malformed"

/-- The `Decode` operation of ECMA-262 with an empty set of preserved escapes.
`octets` are the octets read so far of a multi-octet sequence and `need` the
number of escapes still to come for it. -/
def decodeFrom (octets : List Nat) (need : Nat) : List Char → Except String (List Char)
  | [] => if need = 0 then .ok [] else .error uriMalformed
  | '%' :: h1 :: h2 :: rest =>
    match hexDigit h1, hexDigit h2 with
    | some a, some b =>
      let octet := 16 * a + b
      if need = 0 then
        if leadingOnes octet = 0 then
          (decodeFrom [] 0 rest).map (fun r => Char.ofNat octet :: r)
        else if leadingOnes octet = 1 ∨ 4 < leadingOnes octet then .error uriMalformed
        else decodeFrom [octet] (leadingOnes octet - 1) rest
      else if need = 1 then
        match utf8CodePoint (octets ++ [octet]) with
        | some v => (decodeFrom [] 0 rest).map (fun r => Char.ofNat v :: r)
        | none => .error uriMalformed
      else decodeFrom (octets ++ [octet]) (need - 1) rest
    | _, _ => .error uriMalformed
  | c :: rest =>
    if c = '%' ∨ need ≠ 0 then .error uriMalformed
    else (decodeFrom [] 0 rest).map (fun r => c :: r)

/-- The built-in `decodeURIComponent`: the decoded string, or the message of the
`URIError` it throws. -/
def decodeURIComponent (s : String) : Except String String :=
  (decodeFrom [] 0 s.data).map String.mk

/-- The loop of lines 62-67 over the remaining pairs, `formData` being the object
built so far. The key is decoded before the value. -/
def parsePairs : List String → FormData → Except String FormData
  | [], formData => .ok formData
  | pair :: pairs, formData =>
    if jsIncludes pair "=" then
      match jsSplitLimit pair '=' 2 with
      | key :: value :: _ =>
        match decodeURIComponent key with
        | .error e => .error e
        | .ok k =>
          match decodeURIComponent (replacePlus value) with
          | .error e => .error e
          | .ok v => parsePairs pairs (formData.set k v)
      | _ => .error "Cannot read properties of undefined (reading 'replace')"
    else parsePairs pairs formData

/-- Handle form-encoded data (lines 59-67): the mapping decoded from `body`, or
the message of the error thrown while decoding. -/
def parseFormBody (body : String) : Except String FormData :=
  parsePairs (jsSplit body '&') ⟨[]⟩

/-! ## The runtime around the worker -/

/-- ASCII lower-casing, for header names. -/
def lowerCase (s : String) : String :=
  String.mk (s.data.map Char.toLower)

/-- The header list of a request. -/
structure Headers where
  entries : List (String × String)

/-- The call `headers.get(name)`: the values of the headers whose name matches
`name` without regard to case, joined by a comma and a space; `none` (`null`) when
there is none. -/
def Headers.get (headers : Headers) (name : String) : Option String :=
  match (headers.entries.filter (fun e => lowerCase e.1 = lowerCase name)).map Prod.snd with
  | [] => none
  | values => some (", ".intercalate values)

/-- A request as the worker sees it: `json` is what `await request.json()` gives
and `text` what `await request.text()` gives, each either the value or the message
of the error thrown. A JSON body is taken to hold an object whose fields
`tipo_carta`, `carta_negra`, `carta_blanca` and `contexto` are strings or absent.
`request.url` is always a valid URL, so `new URL(request.url)` on line 167 has no
effect and does not throw. -/
structure Request where
  method : String
  headers : Headers
  json : Except String FormData
  text : Except String String

/-- The `meta` object of a D1 result; `last_row_id` is `none` when not reported. -/
structure D1Meta where
  last_row_id : Option Int

/-- What `await stmt.run()` resolves to. -/
structure D1Result where
  meta : D1Meta

/-- The environment: `DB query params` is what
`await env.DB.prepare(query).bind(...params).run()` gives, the result or the
message of the error thrown. -/
structure Env where
  DB : String → List JSValue → Except String D1Result

/-- What a handler does besides computing its response. -/
inductive Effect where
  | readJson
  | readText
  | insert (query : String) (params : List JSValue)

/-- The expression `result.meta.last_row_id || null`. -/
def rowIdOrNull (result : D1Result) : JSValue :=
  match result.meta.last_row_id with
  | some n => if n ≠ 0 then .number n else .null
  | none => .null

/-! ## The submission pipeline and the router -/

/-- The statement text of lines 85-88. -/
def query : String :=
  "\n\t\t\tINSERT INTO form (tipo_carta, carta_negra, carta_blanca, contexto, ip_address, user_agent)\n\t\t\tVALUES (?, ?, ?, ?, ?, ?)\n\t\t"

/-- Lines 72-105 of `handleFormSubmission`: validate the decoded mapping and, when
it is valid, insert it. `effects` are the effects performed so far. -/
def validateAndInsert (request : Request) (env : Env) (formData : FormData)
    (effects : List Effect) : Except String Response × List Effect :=
  -- Validate form data
  let validationErrors := validateFormData formData
  if validationErrors.length > 0 then
    (.ok (createErrorResponse (.array (validationErrors.map .string)) 400 "validation"), effects)
  else
    -- Get client information
    let ipAddress :=
      orDefault (request.headers.get "CF-Connecting-IP")
        (orDefault (request.headers.get "X-Forwarded-For") "unknown")
    let userAgent := orDefault (request.headers.get "User-Agent") "unknown"
    -- Insert into database
    let params : List JSValue :=
      [ fieldValue (formData.get "tipo_carta"),
        orNull (formData.get "carta_negra"),
        orNull (formData.get "carta_blanca"),
        orNull (formData.get "contexto"),
        .string ipAddress,
        .string userAgent ]
    match env.DB query params with
    | .error e => (.error e, effects ++ [.insert query params])
    | .ok result =>
      (.ok (createSuccessResponse (.object
        [ ("success", .bool true),
          ("message", .string "¡Gracias parcero! Tu contribución ha sido recibida."),
          ("id", rowIdOrNull result) ])), effects ++ [.insert query params])

/-- The `try` block of `handleFormSubmission` (lines 51-105): the response it
returns or the message of the error it throws, with the effects performed. -/
def submissionAttempt (request : Request) (env : Env) : Except String Response × List Effect :=
  -- Parse form data
  let contentType := orDefault (request.headers.get "content-type") ""
  if jsIncludes contentType "application/json" then
    match request.json with
    | .error e => (.error e, [.readJson])
    | .ok formData => validateAndInsert request env formData [.readJson]
  else if jsIncludes contentType "application/x-www-form-urlencoded" then
    match request.text with
    | .error e => (.error e, [.readText])
    | .ok body =>
      match parseFormBody body with
      | .error e => (.error e, [.readText])
      | .ok formData => validateAndInsert request env formData [.readText]
  else
    (.ok (createErrorResponse (.string "Unsupported content type") 400 "error"), [])

/-- Handle form submission (lines 49-111): the `try` block, and the `catch` that
turns a thrown error into a 500 response. -/
def handleFormSubmission (request : Request) (env : Env) : Response × List Effect :=
  match submissionAttempt request env with
  | (.ok response, effects) => (response, effects)
  | (.error message, effects) =>
    (createErrorResponse (.string ("Internal server error: " ++ message)) 500 "error", effects)

/-- Main fetch handler (lines 165-200). `now` is `new Date().toISOString()`.
Nothing inside its `try` block throws: `handleFormSubmission` catches its own
errors and the response builders are total, so the `catch` of line 196 is never
entered. -/
def fetch (request : Request) (env : Env) (now : String) : Response × List Effect :=
  -- Handle CORS preflight
  if request.method = "OPTIONS" then (handleOptions, [])
  -- Handle form submissions
  else if request.method = "POST" then handleFormSubmission request env
  -- Handle GET requests (health check)
  else if request.method = "GET" then
    (createSuccessResponse (.object
      [ ("service", .string "Unhinged Cards Form Worker"),
        ("status", .string "healthy"),
        ("timestamp", .string now),
        ("endpoints", .object
          [ ("POST /", .string "Submit form data"),
            ("GET /", .string "Health check"),
            ("OPTIONS /", .string "CORS preflight") ]) ]), [])
  -- Method not allowed
  else (createErrorResponse (.string "Method not allowed") 405 "error", [])

/-! ## The validation rules as the specification words them -/

/-- A field is missing when it is absent or the empty string. -/
def isMissing : Option String → Bool
  | none => true
  | some s => decide (s = "")

/-- A field is over the limit `n` when it is non-empty and its length is
strictly greater than `n`. -/
def overLimit (v : Option String) (n : Nat) : Bool :=
  match v with
  | none => false
  | some s => decide (s ≠ "") && decide (n < jsLength s)

/-- The eight rules of §4.1 in their fixed order: each message with the
condition under which it is reported. -/
def ruleTable (data : FormData) : List (String × Bool) :=
  let tipo := data.get "tipo_carta"
  let negra := data.get "carta_negra"
  let blanca := data.get "carta_blanca"
  [ ("tipo_carta is required", isMissing tipo),
    ("tipo_carta must be 'negra', 'blanca', or 'ambas'",
      !isMissing tipo && decide (tipo ≠ some "negra" ∧ tipo ≠ some "blanca" ∧ tipo ≠ some "ambas")),
    ("carta_negra is required when tipo_carta is 'negra'",
      decide (tipo = some "negra") && isMissing negra),
    ("carta_blanca is required when tipo_carta is 'blanca'",
      decide (tipo = some "blanca") && isMissing blanca),
    ("At least one of carta_negra or carta_blanca is required when tipo_carta is 'ambas'",
      decide (tipo = some "ambas") && (isMissing negra && isMissing blanca)),
    ("carta_negra must be 500 characters or less", overLimit negra 500),
    ("carta_blanca must be 200 characters or less", overLimit blanca 200),
    ("contexto must be 1000 characters or less", overLimit (data.get "contexto") 1000) ]

/-- Walk the rule table in order and keep the message of every rule whose
condition holds. -/
def walkRules (data : FormData) : List String :=
  (ruleTable data).filterMap (fun r => if r.2 then some r.1 else none)

/-- The content a card type requires is there. -/
def contentPresent (data : FormData) : Prop :=
  (data.get "tipo_carta" = some "negra" → isMissing (data.get "carta_negra") = false) ∧
  (data.get "tipo_carta" = some "blanca" → isMissing (data.get "carta_blanca") = false) ∧
  (data.get "tipo_carta" = some "ambas" →
    isMissing (data.get "carta_negra") = false ∨ isMissing (data.get "carta_blanca") = false)

/-- A field respects the limit `n`: it is absent, or its length is at most `n`
(the empty string has length zero). -/
def withinLimit (v : Option String) (n : Nat) : Prop :=
  ∀ s, v = some s → jsLength s ≤ n

/-- The well-formedness invariant of a submission (§3). -/
def wellFormed (data : FormData) : Prop :=
  (data.get "tipo_carta" = some "negra" ∨ data.get "tipo_carta" = some "blanca" ∨
    data.get "tipo_carta" = some "ambas") ∧
  contentPresent data ∧
  withinLimit (data.get "carta_negra") 500 ∧
  withinLimit (data.get "carta_blanca") 200 ∧
  withinLimit (data.get "contexto") 1000

/-! ## The pipeline as the specification words it -/

/-- The request has a supported content type and its body decodes to the field
mapping `formData`: JSON when the content type contains `application/json`,
otherwise URL-encoded when it contains `application/x-www-form-urlencoded`. -/
def decodesTo (request : Request) (formData : FormData) : Prop :=
  (jsIncludes (orDefault (request.headers.get "content-type") "") "application/json" = true ∧
    request.json = .ok formData) ∨
  (jsIncludes (orDefault (request.headers.get "content-type") "") "application/json" = false ∧
    jsIncludes (orDefault (request.headers.get "content-type") "")
      "application/x-www-form-urlencoded" = true ∧
    ∃ body, request.text = .ok body ∧ parseFormBody body = .ok formData)

/-- The inserts among a list of effects, in order: statement text and bound
parameters. -/
def inserts : List Effect → List (String × List JSValue)
  | [] => []
  | .insert q ps :: rest => (q, ps) :: inserts rest
  | _ :: rest => inserts rest

/-- The columns of the table `form` in the order of the insert statement. -/
def columns : List String :=
  ["tipo_carta", "carta_negra", "carta_blanca", "contexto", "ip_address", "user_agent"]

/-- A submitted optional field as a parameter: its value when it is non-empty,
`null` when it is absent or empty. -/
def valueOrNull (v : Option String) : JSValue :=
  match v with
  | none => .null
  | some s => if s = "" then .null else .string s

/-- A header that is present and not empty. -/
def nonEmptyHeader (request : Request) (name : String) : Option String :=
  match request.headers.get name with
  | some s => if s = "" then none else some s
  | none => none

/-- The client address: `CF-Connecting-IP` when present and not empty, else
`X-Forwarded-For` when present and not empty, else `"unknown"`. -/
def clientIp (request : Request) : String :=
  match nonEmptyHeader request "CF-Connecting-IP" with
  | some ip => ip
  | none =>
    match nonEmptyHeader request "X-Forwarded-For" with
    | some ip => ip
    | none => "unknown"

/-- The client agent: `User-Agent` when present and not empty, else `"unknown"`. -/
def clientAgent (request : Request) : String :=
  match nonEmptyHeader request "User-Agent" with
  | some agent => agent
  | none => "unknown"

/-- The six parameters of the insert, in column order. -/
def boundParams (request : Request) (formData : FormData) : List JSValue :=
  [ fieldValue (formData.get "tipo_carta"),
    valueOrNull (formData.get "carta_negra"),
    valueOrNull (formData.get "carta_blanca"),
    valueOrNull (formData.get "contexto"),
    .string (clientIp request),
    .string (clientAgent request) ]

/-- The client address read as "the header if present": `CF-Connecting-IP` if
present, else `X-Forwarded-For` if present, else `"unknown"`. -/
def clientIpIfPresent (request : Request) : String :=
  match request.headers.get "CF-Connecting-IP" with
  | some ip => ip
  | none =>
    match request.headers.get "X-Forwarded-For" with
    | some ip => ip
    | none => "unknown"

/-- The client agent read as "the header if present": `User-Agent` if present,
else `"unknown"`. -/
def clientAgentIfPresent (request : Request) : String :=
  match request.headers.get "User-Agent" with
  | some agent => agent
  | none => "unknown"

/-- The identifier of the success envelope read as "null exactly when the
database reports none": the reported identifier, whatever its value. -/
def reportedId (result : D1Result) : JSValue :=
  match result.meta.last_row_id with
  | some i => .number i
  | none => .null

/-- The identifier of the success envelope: the reported identifier when it is
not zero, `null` when none is reported or it is zero. -/
def nonZeroId (result : D1Result) : JSValue :=
  match result.meta.last_row_id with
  | some i => if i = 0 then .null else .number i
  | none => .null

/-- The headers of every JSON response. -/
def jsonHeaders : List (String × String) :=
  [ ("Content-Type", "application/json"),
    ("Access-Control-Allow-Origin", "*"),
    ("Access-Control-Allow-Methods", "GET, POST, OPTIONS"),
    ("Access-Control-Allow-Headers", "Content-Type"),
    ("Access-Control-Max-Age", "86400") ]

/-- The envelope `{success: false, error: message}` with the given status. -/
def errorEnvelope (status : Nat) (message : String) : Response :=
  { status := status
    headers := jsonHeaders
    body := some (.object [("success", .bool false), ("error", .string message)]) }

/-- The envelope `{success: false, errors: [...]}` with status 400. -/
def validationEnvelope (errors : List String) : Response :=
  { status := 400
    headers := jsonHeaders
    body := some (.object [("success", .bool false), ("errors", .array (errors.map .string))]) }

/-- The envelope `{success: true, message: ..., id: id}` with status 200. -/
def successEnvelope (id : JSValue) : Response :=
  { status := 200
    headers := jsonHeaders
    body := some (.object
      [ ("success", .bool true),
        ("message", .string "¡Gracias parcero! Tu contribución ha sido recibida."),
        ("id", id) ]) }

/-- A failure with message `m` is raised inside the pipeline: the JSON body fails
to decode, the URL-encoded body fails to be read or to decode, or the insert of a
valid submission fails. -/
def raises (request : Request) (env : Env) (m : String) : Prop :=
  (jsIncludes (orDefault (request.headers.get "content-type") "") "application/json" = true ∧
    request.json = .error m) ∨
  (jsIncludes (orDefault (request.headers.get "content-type") "") "application/json" = false ∧
    jsIncludes (orDefault (request.headers.get "content-type") "")
      "application/x-www-form-urlencoded" = true ∧
    (request.text = .error m ∨
      ∃ body, request.text = .ok body ∧ parseFormBody body = .error m)) ∨
  (∃ formData, decodesTo request formData ∧ validateFormData formData = [] ∧
    env.DB query (boundParams request formData) = .error m)

/-- One rule's contribution to the error list. -/
def report (c : Bool) (m : String) : List String :=
  if c then [m] else []

/-- The text of a segment before its first '='. -/
def beforeFirstEquals (pair : String) : String :=
  String.mk (pair.data.takeWhile (fun c => c != '='))

/-- The text of a segment after its first '=': all of it. -/
def afterFirstEquals (pair : String) : String :=
  String.mk (pair.data.dropWhile (fun c => c != '=')).tail

/-- The text of a segment between its first '=' and its second '=' (or its end,
when there is no second one). -/
def betweenEquals (pair : String) : String :=
  String.mk ((pair.data.dropWhile (fun c => c != '=')).tail.takeWhile (fun c => c != '='))

/-! ## Sample requests and environments -/

/-- The mapping of a black card with text "x" and nothing else. -/
def sampleForm : FormData :=
  ⟨[("tipo_carta", "negra"), ("carta_negra", "x")]⟩

/-- A JSON request submitting `sampleForm`. -/
def sampleRequest : Request :=
  { method := "POST"
    headers := ⟨[("Content-Type", "application/json"), ("CF-Connecting-IP", "203.0.113.7"),
      ("User-Agent", "curl/8.0")]⟩
    json := .ok sampleForm
    text := .ok "\x7b\"tipo_carta\":\"negra\",\"carta_negra\":\"x\"\x7d" }

/-- The request `sampleRequest` with an empty `CF-Connecting-IP` header, an
`X-Forwarded-For` header and an empty `User-Agent` header. -/
def emptyHeadersRequest : Request :=
  { method := "POST"
    headers := ⟨[("Content-Type", "application/json"), ("CF-Connecting-IP", ""),
      ("X-Forwarded-For", "198.51.100.4"), ("User-Agent", "")]⟩
    json := .ok sampleForm
    text := .ok "\x7b\"tipo_carta\":\"negra\",\"carta_negra\":\"x\"\x7d" }

/-- A URL-encoded request of a black card without its text. -/
def invalidRequest : Request :=
  { method := "POST"
    headers := ⟨[("content-type", "application/x-www-form-urlencoded; charset=UTF-8")]⟩
    json := .error "Unexpected token 'i', \"tipo_carta\"... is not valid JSON"
    text := .ok "tipo_carta=negra&carta_blanca=hola+parcero" }

/-- A request with content type `text/plain`. -/
def plainTextRequest : Request :=
  { method := "POST"
    headers := ⟨[("Content-Type", "text/plain")]⟩
    json := .ok sampleForm
    text := .ok "tipo_carta=negra&carta_negra=x" }

/-- A `PATCH` request carrying a valid JSON submission. -/
def patchRequest : Request :=
  { method := "PATCH"
    headers := ⟨[("Content-Type", "application/json")]⟩
    json := .ok sampleForm
    text := .ok "" }

/-- A database that accepts every insert and reports row 7. -/
def sampleEnv : Env :=
  ⟨fun _ _ => .ok ⟨⟨some 7⟩⟩⟩

/-- A database that accepts every insert and reports the row identifier 0. -/
def zeroIdEnv : Env :=
  ⟨fun _ _ => .ok ⟨⟨some 0⟩⟩⟩

/-- A database whose insert fails. -/
def failingEnv : Env :=
  ⟨fun _ _ => .error "D1_ERROR: no such table: form"⟩

/-! ## Properties of the validator -/

theorem jsLength_empty : jsLength "" = 0 := by decide

theorem truthy_eq_not_isMissing (v : Option String) : truthy v = !isMissing v := by
  cases v <;> simp [truthy, isMissing]

theorem lengthExceeds_eq (v : Option String) (n : Nat) :
    (truthy v && lengthExceeds v n) = overLimit v n := by
  cases v <;> simp [truthy, lengthExceeds, overLimit]

theorem includes_three (t : Option String) :
    includes ["negra", "blanca", "ambas"] t =
      decide (t = some "negra" ∨ t = some "blanca" ∨ t = some "ambas") := by
  cases t with
  | none => simp [includes]
  | some s =>
    rw [Bool.eq_iff_iff]
    simp [includes]

theorem mem_report (m m' : String) (c : Bool) : m ∈ report c m' ↔ (c = true ∧ m = m') := by
  cases c <;> simp [report]

theorem report_eq_nil (m : String) (c : Bool) : report c m = [] ↔ c = false := by
  cases c <;> simp [report]

theorem overLimit_eq_false (v : Option String) (n : Nat) :
    overLimit v n = false ↔ withinLimit v n := by
  cases v with
  | none => simp [overLimit, withinLimit]
  | some s =>
    by_cases hs : s = ""
    · subst hs
      simp [overLimit, withinLimit, jsLength_empty]
    · simp [overLimit, withinLimit, hs]

theorem overLimit_some (s : String) (n : Nat) :
    overLimit (some s) n = decide (n < jsLength s) := by
  by_cases hs : s = ""
  · subst hs
    simp [overLimit, jsLength_empty]
  · simp [overLimit, hs]

/-- The error list is the concatenation of the eight rules' contributions. -/
theorem validateFormData_normal_form (data : FormData) :
    validateFormData data =
      report (isMissing (data.get "tipo_carta")) "tipo_carta is required" ++
      report (!isMissing (data.get "tipo_carta") &&
          decide (data.get "tipo_carta" ≠ some "negra" ∧ data.get "tipo_carta" ≠ some "blanca" ∧
            data.get "tipo_carta" ≠ some "ambas"))
        "tipo_carta must be 'negra', 'blanca', or 'ambas'" ++
      report (decide (data.get "tipo_carta" = some "negra") && isMissing (data.get "carta_negra"))
        "carta_negra is required when tipo_carta is 'negra'" ++
      report (decide (data.get "tipo_carta" = some "blanca") && isMissing (data.get "carta_blanca"))
        "carta_blanca is required when tipo_carta is 'blanca'" ++
      report (decide (data.get "tipo_carta" = some "ambas") &&
          (isMissing (data.get "carta_negra") && isMissing (data.get "carta_blanca")))
        "At least one of carta_negra or carta_blanca is required when tipo_carta is 'ambas'" ++
      report (overLimit (data.get "carta_negra") 500) "carta_negra must be 500 characters or less" ++
      report (overLimit (data.get "carta_blanca") 200) "carta_blanca must be 200 characters or less" ++
      report (overLimit (data.get "contexto") 1000) "contexto must be 1000 characters or less" := by
  unfold validateFormData
  simp only [includes_three, ← lengthExceeds_eq, truthy_eq_not_isMissing]
  generalize data.get "tipo_carta" = t
  generalize data.get "carta_negra" = cn
  generalize data.get "carta_blanca" = cb
  generalize data.get "contexto" = cx
  generalize lengthExceeds cn 500 = l1
  generalize lengthExceeds cb 200 = l2
  generalize lengthExceeds cx 1000 = l3
  generalize isMissing cn = m1
  generalize isMissing cb = m2
  generalize isMissing cx = m3
  by_cases h1 : t = some "negra"
  · subst h1
    cases m1 <;> cases m2 <;> cases m3 <;> cases l1 <;> cases l2 <;> cases l3 <;>
      simp [report, isMissing]
  · by_cases h2 : t = some "blanca"
    · subst h2
      cases m1 <;> cases m2 <;> cases m3 <;> cases l1 <;> cases l2 <;> cases l3 <;>
        simp [report, isMissing]
    · by_cases h3 : t = some "ambas"
      · subst h3
        cases m1 <;> cases m2 <;> cases m3 <;> cases l1 <;> cases l2 <;> cases l3 <;>
          simp [report, isMissing]
      · generalize isMissing t = mt
        cases mt <;> cases m1 <;> cases m2 <;> cases m3 <;> cases l1 <;> cases l2 <;> cases l3 <;>
          simp [report, h1, h2, h3]

/-- C1. For every field mapping, `validateFormData` returns exactly the list
obtained by walking the eight rule messages in their fixed order and keeping a
message if and only if its rule's condition holds; each length message is there
exactly when the field's length is strictly greater than its limit, so a length at
the limit gives no length error and one more gives it. -/
theorem validateFormData_walks_rules (data : FormData) :
    validateFormData data = walkRules data ∧
    (∀ r ∈ ruleTable data, (r.1 ∈ validateFormData data ↔ r.2 = true)) ∧
    (∀ s, data.get "carta_negra" = some s →
      ("carta_negra must be 500 characters or less" ∈ validateFormData data ↔
        500 < jsLength s)) ∧
    (∀ s, data.get "carta_blanca" = some s →
      ("carta_blanca must be 200 characters or less" ∈ validateFormData data ↔
        200 < jsLength s)) ∧
    (∀ s, data.get "contexto" = some s →
      ("contexto must be 1000 characters or less" ∈ validateFormData data ↔
        1000 < jsLength s)) := by
  refine ⟨?_, ?_, ?_, ?_, ?_⟩
  · rw [validateFormData_normal_form]
    simp only [walkRules, ruleTable]
    generalize isMissing (data.get "tipo_carta") = c1
    generalize decide (data.get "tipo_carta" ≠ some "negra" ∧ data.get "tipo_carta" ≠ some "blanca" ∧
      data.get "tipo_carta" ≠ some "ambas") = c2
    generalize (decide (data.get "tipo_carta" = some "negra") &&
      isMissing (data.get "carta_negra")) = c3
    generalize (decide (data.get "tipo_carta" = some "blanca") &&
      isMissing (data.get "carta_blanca")) = c4
    generalize (decide (data.get "tipo_carta" = some "ambas") &&
      (isMissing (data.get "carta_negra") && isMissing (data.get "carta_blanca"))) = c5
    generalize overLimit (data.get "carta_negra") 500 = c6
    generalize overLimit (data.get "carta_blanca") 200 = c7
    generalize overLimit (data.get "contexto") 1000 = c8
    cases c1 <;> cases c2 <;> cases c3 <;> cases c4 <;> cases c5 <;> cases c6 <;> cases c7 <;>
      cases c8 <;> rfl
  · intro r hr
    rw [validateFormData_normal_form]
    simp only [ruleTable, List.mem_cons, List.mem_singleton, List.not_mem_nil, or_false] at hr
    rcases hr with h | h | h | h | h | h | h | h <;> subst h <;>
      simp [mem_report]
  · intro s hs
    rw [validateFormData_normal_form, hs, overLimit_some]
    simp [mem_report]
  · intro s hs
    rw [validateFormData_normal_form, hs, overLimit_some]
    simp [mem_report]
  · intro s hs
    rw [validateFormData_normal_form, hs, overLimit_some]
    simp [mem_report]

/-- C2. For every field mapping, `validateFormData` returns the empty list if and
only if the submission is well-formed: `tipo_carta` is one of negra, blanca, ambas,
the content that type requires is non-empty, and every length limit is respected. -/
theorem validateFormData_nil_iff_wellFormed (data : FormData) :
    validateFormData data = [] ↔ wellFormed data := by
  rw [validateFormData_normal_form]
  simp only [List.append_eq_nil, report_eq_nil, overLimit_eq_false, wellFormed, contentPresent]
  generalize data.get "tipo_carta" = t
  generalize data.get "carta_negra" = cn
  generalize data.get "carta_blanca" = cb
  generalize withinLimit cn 500 = w1
  generalize withinLimit cb 200 = w2
  generalize withinLimit (data.get "contexto") 1000 = w3
  generalize isMissing cn = m1
  generalize isMissing cb = m2
  by_cases h1 : t = some "negra"
  · subst h1
    cases m1 <;> cases m2 <;> simp [isMissing, and_assoc]
  · by_cases h2 : t = some "blanca"
    · subst h2
      cases m1 <;> cases m2 <;> simp [isMissing, and_assoc]
    · by_cases h3 : t = some "ambas"
      · subst h3
        cases m1 <;> cases m2 <;> simp [isMissing, and_assoc]
      · generalize isMissing t = mt
        cases mt <;> simp [h1, h2, h3]

/-- C3. For every field mapping in which `tipo_carta` is missing (absent or
empty), `validateFormData` returns a non-empty list whose first element is
"tipo_carta is required", in which that message occurs exactly once, and in which
every other element is one of the three length-limit messages: the membership
message and the three content messages never appear. -/
theorem validateFormData_missing_tipo (data : FormData)
    (h : isMissing (data.get "tipo_carta") = true) :
    ∃ rest, validateFormData data = "tipo_carta is required" :: rest ∧
      "tipo_carta is required" ∉ rest ∧
      (∀ e ∈ rest, e = "carta_negra must be 500 characters or less" ∨
        e = "carta_blanca must be 200 characters or less" ∨
        e = "contexto must be 1000 characters or less") ∧
      (validateFormData data).count "tipo_carta is required" = 1 ∧
      "tipo_carta must be 'negra', 'blanca', or 'ambas'" ∉ validateFormData data ∧
      "carta_negra is required when tipo_carta is 'negra'" ∉ validateFormData data ∧
      "carta_blanca is required when tipo_carta is 'blanca'" ∉ validateFormData data ∧
      "At least one of carta_negra or carta_blanca is required when tipo_carta is 'ambas'" ∉
        validateFormData data := by
  have hn : data.get "tipo_carta" ≠ some "negra" := by
    intro hc; rw [hc] at h; simp [isMissing] at h
  have hb : data.get "tipo_carta" ≠ some "blanca" := by
    intro hc; rw [hc] at h; simp [isMissing] at h
  have ha : data.get "tipo_carta" ≠ some "ambas" := by
    intro hc; rw [hc] at h; simp [isMissing] at h
  refine ⟨report (overLimit (data.get "carta_negra") 500) "carta_negra must be 500 characters or less" ++
      report (overLimit (data.get "carta_blanca") 200) "carta_blanca must be 200 characters or less" ++
      report (overLimit (data.get "contexto") 1000) "contexto must be 1000 characters or less", ?_⟩
  rw [validateFormData_normal_form]
  simp only [h, hn, hb, ha]
  generalize overLimit (data.get "carta_negra") 500 = l1
  generalize overLimit (data.get "carta_blanca") 200 = l2
  generalize overLimit (data.get "contexto") 1000 = l3
  cases l1 <;> cases l2 <;> cases l3 <;> simp [report]

/-- C3 at a mapping without `tipo_carta` whose `carta_blanca` is empty. -/
theorem validateFormData_missing_tipo_witness :
    isMissing (FormData.get ⟨[("carta_blanca", "")]⟩ "tipo_carta") = true ∧
    ∃ rest, validateFormData ⟨[("carta_blanca", "")]⟩ = "tipo_carta is required" :: rest ∧
      "tipo_carta is required" ∉ rest ∧
      (∀ e ∈ rest, e = "carta_negra must be 500 characters or less" ∨
        e = "carta_blanca must be 200 characters or less" ∨
        e = "contexto must be 1000 characters or less") ∧
      (validateFormData ⟨[("carta_blanca", "")]⟩).count "tipo_carta is required" = 1 ∧
      "tipo_carta must be 'negra', 'blanca', or 'ambas'" ∉
        validateFormData ⟨[("carta_blanca", "")]⟩ ∧
      "carta_negra is required when tipo_carta is 'negra'" ∉
        validateFormData ⟨[("carta_blanca", "")]⟩ ∧
      "carta_blanca is required when tipo_carta is 'blanca'" ∉
        validateFormData ⟨[("carta_blanca", "")]⟩ ∧
      "At least one of carta_negra or carta_blanca is required when tipo_carta is 'ambas'" ∉
        validateFormData ⟨[("carta_blanca", "")]⟩ :=
  ⟨by decide, validateFormData_missing_tipo ⟨[("carta_blanca", "")]⟩ (by decide)⟩

/-! ## Properties of the response builders and of the pipeline -/

theorem createErrorResponse_string (m : String) (status : Nat) :
    createErrorResponse (.string m) status "error" = errorEnvelope status m := by
  simp [createErrorResponse, errorEnvelope, jsonHeaders, getCorsHeaders]

theorem createErrorResponse_validation (errors : List String) :
    createErrorResponse (.array (errors.map .string)) 400 "validation" =
      validationEnvelope errors := by
  simp [createErrorResponse, validationEnvelope, jsonHeaders, getCorsHeaders]

theorem orNull_eq_valueOrNull (v : Option String) : orNull v = valueOrNull v := by
  cases v with
  | none => simp [orNull, valueOrNull, truthy]
  | some s => by_cases hs : s = "" <;> simp [orNull, valueOrNull, truthy, fieldValue, hs]

theorem orDefault_eq (request : Request) (name d : String) :
    orDefault (request.headers.get name) d =
      match nonEmptyHeader request name with
      | some s => s
      | none => d := by
  unfold orDefault nonEmptyHeader
  cases request.headers.get name with
  | none => rfl
  | some s => by_cases hs : s = "" <;> simp [hs]

theorem clientIp_eq (request : Request) :
    orDefault (request.headers.get "CF-Connecting-IP")
        (orDefault (request.headers.get "X-Forwarded-For") "unknown") =
      clientIp request := by
  rw [orDefault_eq, orDefault_eq]
  rfl

theorem validateAndInsert_invalid (request : Request) (env : Env) (formData : FormData)
    (effects : List Effect) (hv : validateFormData formData ≠ []) :
    validateAndInsert request env formData effects =
      (.ok (validationEnvelope (validateFormData formData)), effects) := by
  unfold validateAndInsert
  have hpos : (validateFormData formData).length > 0 := List.length_pos.mpr hv
  simp only [hpos, if_true, createErrorResponse_validation]

theorem validateAndInsert_valid (request : Request) (env : Env) (formData : FormData)
    (effects : List Effect) (hv : validateFormData formData = []) :
    validateAndInsert request env formData effects =
      match env.DB query (boundParams request formData) with
      | .error e => (.error e, effects ++ [.insert query (boundParams request formData)])
      | .ok result =>
        (.ok (successEnvelope (nonZeroId result)),
          effects ++ [.insert query (boundParams request formData)]) := by
  unfold validateAndInsert
  simp only [hv, List.length_nil, gt_iff_lt, lt_self_iff_false, if_false, clientIp_eq,
    orNull_eq_valueOrNull]
  have hagent : orDefault (request.headers.get "User-Agent") "unknown" = clientAgent request := by
    rw [orDefault_eq]; rfl
  rw [hagent]
  have hparams :
      [fieldValue (formData.get "tipo_carta"), valueOrNull (formData.get "carta_negra"),
        valueOrNull (formData.get "carta_blanca"), valueOrNull (formData.get "contexto"),
        JSValue.string (clientIp request), JSValue.string (clientAgent request)] =
      boundParams request formData := rfl
  rw [hparams]
  cases hdb : env.DB query (boundParams request formData) with
  | error e => rfl
  | ok result =>
    simp only [createSuccessResponse, successEnvelope, jsonHeaders, getCorsHeaders, rowIdOrNull,
      nonZeroId]
    cases result.meta.last_row_id with
    | none => rfl
    | some n => by_cases hn : n = 0 <;> simp [hn]

theorem inserts_append (xs ys : List Effect) : inserts (xs ++ ys) = inserts xs ++ inserts ys := by
  induction xs with
  | nil => rfl
  | cons x xs ih => cases x <;> simp [inserts, ih]

theorem submissionAttempt_of_decodesTo (request : Request) (env : Env) (formData : FormData)
    (hd : decodesTo request formData) :
    ∃ reads, (reads = [Effect.readJson] ∨ reads = [Effect.readText]) ∧
      submissionAttempt request env = validateAndInsert request env formData reads := by
  unfold submissionAttempt
  rcases hd with ⟨hj, hjson⟩ | ⟨hj, hf, body, htext, hparse⟩
  · exact ⟨[.readJson], Or.inl rfl, by simp [hj, hjson]⟩
  · exact ⟨[.readText], Or.inr rfl, by simp [hj, hf, htext, hparse]⟩

theorem inserts_reads (reads : List Effect)
    (h : reads = [Effect.readJson] ∨ reads = [Effect.readText]) : inserts reads = [] := by
  rcases h with h | h <;> subst h <;> rfl

theorem handleFormSubmission_of_ok (request : Request) (env : Env) (response : Response)
    (effects : List Effect) (h : submissionAttempt request env = (.ok response, effects)) :
    handleFormSubmission request env = (response, effects) := by
  simp [handleFormSubmission, h]

theorem handleFormSubmission_of_error (request : Request) (env : Env) (m : String)
    (effects : List Effect) (h : submissionAttempt request env = (.error m, effects)) :
    handleFormSubmission request env =
      (errorEnvelope 500 ("Internal server error: " ++ m), effects) := by
  simp [handleFormSubmission, h, createErrorResponse_string]

/-- The three ways the `try` block can go: no supported content type, a body that
fails to decode, or a decoded mapping handed to validation. -/
theorem submissionAttempt_cases (request : Request) (env : Env) :
    (jsIncludes (orDefault (request.headers.get "content-type") "") "application/json" = false ∧
      jsIncludes (orDefault (request.headers.get "content-type") "")
        "application/x-www-form-urlencoded" = false ∧
      submissionAttempt request env =
        (.ok (errorEnvelope 400 "Unsupported content type"), [])) ∨
    (∃ m reads, (reads = [Effect.readJson] ∨ reads = [Effect.readText]) ∧
      submissionAttempt request env = (.error m, reads) ∧
      ((jsIncludes (orDefault (request.headers.get "content-type") "") "application/json" = true ∧
          request.json = .error m) ∨
        (jsIncludes (orDefault (request.headers.get "content-type") "") "application/json" = false ∧
          jsIncludes (orDefault (request.headers.get "content-type") "")
            "application/x-www-form-urlencoded" = true ∧
          (request.text = .error m ∨
            ∃ body, request.text = .ok body ∧ parseFormBody body = .error m)))) ∨
    (∃ formData reads, decodesTo request formData ∧
      (reads = [Effect.readJson] ∨ reads = [Effect.readText]) ∧
      submissionAttempt request env = validateAndInsert request env formData reads) := by
  unfold decodesTo
  cases hj : jsIncludes (orDefault (request.headers.get "content-type") "") "application/json" with
  | true =>
    cases hjson : request.json with
    | error m =>
      exact Or.inr (Or.inl ⟨m, [.readJson], Or.inl rfl,
        by simp [submissionAttempt, hj, hjson], Or.inl ⟨rfl, rfl⟩⟩)
    | ok formData =>
      exact Or.inr (Or.inr ⟨formData, [.readJson], Or.inl ⟨rfl, rfl⟩, Or.inl rfl,
        by simp [submissionAttempt, hj, hjson]⟩)
  | false =>
    cases hf : jsIncludes (orDefault (request.headers.get "content-type") "")
        "application/x-www-form-urlencoded" with
    | false =>
      exact Or.inl ⟨rfl, rfl, by simp [submissionAttempt, hj, hf, createErrorResponse_string]⟩
    | true =>
      cases htext : request.text with
      | error m =>
        exact Or.inr (Or.inl ⟨m, [.readText], Or.inr rfl,
          by simp [submissionAttempt, hj, hf, htext], Or.inr ⟨rfl, rfl, Or.inl rfl⟩⟩)
      | ok body =>
        cases hparse : parseFormBody body with
        | error m =>
          exact Or.inr (Or.inl ⟨m, [.readText], Or.inr rfl,
            by simp [submissionAttempt, hj, hf, htext, hparse],
            Or.inr ⟨rfl, rfl, Or.inr ⟨body, rfl, hparse⟩⟩⟩)
        | ok formData =>
          exact Or.inr (Or.inr ⟨formData, [.readText],
            Or.inr ⟨rfl, rfl, body, rfl, hparse⟩, Or.inr rfl,
            by simp [submissionAttempt, hj, hf, htext, hparse]⟩)

/-- A request decodes to at most one mapping. -/
theorem decodesTo_unique (request : Request) (d₁ d₂ : FormData)
    (h₁ : decodesTo request d₁) (h₂ : decodesTo request d₂) : d₁ = d₂ := by
  rcases h₁ with ⟨hj, h1⟩ | ⟨hj, _, b1, ht1, hp1⟩ <;>
    rcases h₂ with ⟨hj', h2⟩ | ⟨hj', _, b2, ht2, hp2⟩
  · rw [h1] at h2; exact Except.ok.inj h2
  · rw [hj] at hj'; cases hj'
  · rw [hj] at hj'; cases hj'
  · rw [ht1] at ht2
    have hb : b1 = b2 := Except.ok.inj ht2
    subst hb
    rw [hp1] at hp2
    exact Except.ok.inj hp2

/-- The `try` block throws with message `m` exactly when a failure with message
`m` is raised by decoding or by the insert of a valid submission. -/
theorem submissionAttempt_error_iff_raises (request : Request) (env : Env) (m : String) :
    (submissionAttempt request env).1 = .error m ↔ raises request env m := by
  constructor
  · intro h
    rcases submissionAttempt_cases request env with ⟨_, _, ha⟩ | ⟨m', reads, _, ha, hc⟩ |
        ⟨formData, reads, hd, _, ha⟩
    · rw [ha] at h; cases h
    · rw [ha] at h
      have hm : m' = m := Except.error.inj h
      subst hm
      rcases hc with hc | hc
      · exact Or.inl hc
      · exact Or.inr (Or.inl hc)
    · by_cases hv : validateFormData formData = []
      · rw [ha, validateAndInsert_valid request env formData reads hv] at h
        cases hdb : env.DB query (boundParams request formData) with
        | error e =>
          rw [hdb] at h
          have hm : e = m := Except.error.inj h
          subst hm
          exact Or.inr (Or.inr ⟨formData, hd, hv, hdb⟩)
        | ok result => rw [hdb] at h; cases h
      · rw [ha, validateAndInsert_invalid request env formData reads hv] at h
        cases h
  · intro h
    rcases h with ⟨hj, hjson⟩ | ⟨hj, hf, ht⟩ | ⟨formData, hd, hv, hdb⟩
    · simp [submissionAttempt, hj, hjson]
    · rcases ht with ht | ⟨body, ht, hp⟩
      · simp [submissionAttempt, hj, hf, ht]
      · simp [submissionAttempt, hj, hf, ht, hp]
    · obtain ⟨reads, _, ha⟩ := submissionAttempt_of_decodesTo request env formData hd
      rw [ha, validateAndInsert_valid request env formData reads hv, hdb]

theorem valueOrNull_ne_empty (v : Option String) : valueOrNull v ≠ .string "" := by
  cases v with
  | none => simp [valueOrNull]
  | some s => by_cases hs : s = "" <;> simp [valueOrNull, hs]

theorem nonEmptyHeader_ne_empty (request : Request) (name s : String)
    (h : nonEmptyHeader request name = some s) : s ≠ "" := by
  unfold nonEmptyHeader at h
  cases hg : request.headers.get name with
  | none => rw [hg] at h; cases h
  | some t =>
    rw [hg] at h
    by_cases ht : t = ""
    · simp [ht] at h
    · simp [ht] at h
      rw [← h]; exact ht

theorem clientIp_ne_empty (request : Request) : clientIp request ≠ "" := by
  unfold clientIp
  cases h1 : nonEmptyHeader request "CF-Connecting-IP" with
  | some ip => exact nonEmptyHeader_ne_empty request _ ip h1
  | none =>
    cases h2 : nonEmptyHeader request "X-Forwarded-For" with
    | some ip => exact nonEmptyHeader_ne_empty request _ ip h2
    | none => decide

theorem clientAgent_ne_empty (request : Request) : clientAgent request ≠ "" := by
  unfold clientAgent
  cases h1 : nonEmptyHeader request "User-Agent" with
  | some agent => exact nonEmptyHeader_ne_empty request _ agent h1
  | none => decide

theorem tipo_of_valid (formData : FormData) (hv : validateFormData formData = []) :
    formData.get "tipo_carta" = some "negra" ∨ formData.get "tipo_carta" = some "blanca" ∨
      formData.get "tipo_carta" = some "ambas" := by
  rw [validateFormData_normal_form] at hv
  simp only [List.append_eq_nil, report_eq_nil] at hv
  obtain ⟨⟨⟨⟨⟨⟨⟨h1, h2⟩, _⟩, _⟩, _⟩, _⟩, _⟩, _⟩ := hv
  simp only [h1, Bool.not_false, Bool.true_and, decide_eq_false_iff_not] at h2
  by_cases hn : formData.get "tipo_carta" = some "negra"
  · exact Or.inl hn
  · by_cases hb : formData.get "tipo_carta" = some "blanca"
    · exact Or.inr (Or.inl hb)
    · by_cases ha : formData.get "tipo_carta" = some "ambas"
      · exact Or.inr (Or.inr ha)
      · exact absurd ⟨hn, hb, ha⟩ h2

/-! ## Properties of the URL-encoded decoder -/

theorem jsIncludes_equals (pair : String) : jsIncludes pair "=" = true ↔ '=' ∈ pair.data := by
  unfold jsIncludes
  have hdata : ("=" : String).data = ['='] := rfl
  rw [hdata]
  generalize pair.data = cs
  induction cs with
  | nil => simp [List.isPrefixOf]
  | cons c cs ih =>
    simp only [List.tails, List.any_cons, Bool.or_eq_true, List.mem_cons]
    constructor
    · rintro (h | h)
      · left
        simp only [List.isPrefixOf, Bool.and_true, beq_iff_eq] at h
        exact h
      · exact Or.inr (ih.mp h)
    · rintro (h | h)
      · left
        simp only [List.isPrefixOf, Bool.and_true, beq_iff_eq]
        exact h
      · exact Or.inr (ih.mpr h)

theorem splitChars_cons_eq (sep c : Char) (cs : List Char) (h : c = sep) :
    splitChars sep (c :: cs) = [] :: splitChars sep cs := by
  rw [splitChars, if_pos h]

theorem splitChars_cons_ne (sep c : Char) (cs p : List Char) (ps : List (List Char))
    (h : c ≠ sep) (hs : splitChars sep cs = p :: ps) :
    splitChars sep (c :: cs) = (c :: p) :: ps := by
  rw [splitChars, if_neg h, hs]

/-- The first piece of a split is the text before the first separator, and the
other pieces are the split of the text after it. -/
theorem splitChars_eq (sep : Char) (cs : List Char) :
    splitChars sep cs =
      cs.takeWhile (fun c => c != sep) ::
        (if sep ∈ cs then splitChars sep (cs.dropWhile (fun c => c != sep)).tail else []) := by
  induction cs with
  | nil => simp [splitChars]
  | cons c cs ih =>
    by_cases h : c = sep
    · subst h
      rw [splitChars_cons_eq c c cs rfl]
      simp [List.takeWhile, List.dropWhile]
    · have hne : (c != sep) = true := by simpa using h
      rw [splitChars_cons_ne sep c cs _ _ h ih]
      have hmem : sep ∈ c :: cs ↔ sep ∈ cs := by
        simp [List.mem_cons, Ne.symm h]
      by_cases hm : sep ∈ cs
      · simp [List.takeWhile, List.dropWhile, hne, hm]
      · simp [List.takeWhile, List.dropWhile, hne, hm, Ne.symm h]

/-- What `pair.split('=', 2)` gives for a segment that contains '=': the text
before the first '=' and the text between the first and the second '='. -/
theorem jsSplitLimit_equals (pair : String) (h : '=' ∈ pair.data) :
    jsSplitLimit pair '=' 2 = [beforeFirstEquals pair, betweenEquals pair] := by
  unfold jsSplitLimit jsSplit beforeFirstEquals betweenEquals
  rw [splitChars_eq, if_pos h, splitChars_eq '=' (pair.data.dropWhile (fun c => c != '=')).tail]
  simp

/-- One turn of the loop: a segment without '=' contributes nothing; a segment
with '=' binds the decoded text before its first '=' to the decoded text between
its first and second '=', with '+' turned into a space in the value only; a later
segment overwrites an earlier one. -/
theorem parsePairs_cons (pair : String) (pairs : List String) (formData : FormData) :
    parsePairs (pair :: pairs) formData =
      if '=' ∈ pair.data then
        match decodeURIComponent (beforeFirstEquals pair) with
        | .error e => .error e
        | .ok k =>
          match decodeURIComponent (replacePlus (betweenEquals pair)) with
          | .error e => .error e
          | .ok v => parsePairs pairs (formData.set k v)
      else parsePairs pairs formData := by
  by_cases h : '=' ∈ pair.data
  · have hi : jsIncludes pair "=" = true := (jsIncludes_equals pair).mpr h
    rw [parsePairs, if_pos hi, if_pos h, jsSplitLimit_equals pair h]
  · have hi : ¬ jsIncludes pair "=" = true := fun hc => h ((jsIncludes_equals pair).mp hc)
    rw [parsePairs, if_neg hi, if_neg h]

/-- The value kept differs from the whole text after the first '=' exactly when
the segment has a second '='. -/
theorem betweenEquals_eq_afterFirstEquals_iff (pair : String) :
    betweenEquals pair = afterFirstEquals pair ↔ '=' ∉ (afterFirstEquals pair).data := by
  unfold betweenEquals afterFirstEquals
  generalize (pair.data.dropWhile (fun c => c != '=')).tail = rest
  constructor
  · intro h hmem
    have hrest : rest.takeWhile (fun c => c != '=') = rest := by
      have := congrArg String.data h
      simpa using this
    have hall := List.takeWhile_eq_self_iff.mp hrest
    have := hall '=' hmem
    simp at this
  · intro h
    have hrest : rest.takeWhile (fun c => c != '=') = rest := by
      apply List.takeWhile_eq_self_iff.mpr
      intro c hc
      have : c ≠ '=' := fun hceq => h (hceq ▸ hc)
      simpa using this
    rw [hrest]

/-! ## The claims about the pipeline -/

/-- C4. For every request with a supported content type whose decoded field
mapping makes `validateFormData` return a non-empty list, `handleFormSubmission`
issues no insert and returns status 400 with body `{success: false, errors: E}`, `E`
being the validator's list in the validator's order; conversely an insert is
issued only when the request decodes to a mapping whose error list is empty. -/
theorem handleFormSubmission_rejects_invalid (request : Request) (env : Env) :
    (∀ formData, decodesTo request formData → validateFormData formData ≠ [] →
      (handleFormSubmission request env).1 = validationEnvelope (validateFormData formData) ∧
      inserts (handleFormSubmission request env).2 = []) ∧
    (inserts (handleFormSubmission request env).2 ≠ [] →
      ∃ formData, decodesTo request formData ∧ validateFormData formData = []) := by
  constructor
  · intro formData hd hv
    obtain ⟨reads, hreads, ha⟩ := submissionAttempt_of_decodesTo request env formData hd
    rw [validateAndInsert_invalid request env formData reads hv] at ha
    rw [handleFormSubmission_of_ok request env _ _ ha]
    exact ⟨rfl, inserts_reads reads hreads⟩
  · intro h
    rcases submissionAttempt_cases request env with ⟨_, _, ha⟩ | ⟨m, reads, hreads, ha, _⟩ |
        ⟨formData, reads, hd, hreads, ha⟩
    · rw [handleFormSubmission_of_ok request env _ _ ha] at h
      exact absurd rfl h
    · rw [handleFormSubmission_of_error request env _ _ ha] at h
      exact absurd (inserts_reads reads hreads) h
    · by_cases hv : validateFormData formData = []
      · exact ⟨formData, hd, hv⟩
      · rw [validateAndInsert_invalid request env formData reads hv] at ha
        rw [handleFormSubmission_of_ok request env _ _ ha] at h
        exact absurd (inserts_reads reads hreads) h

/-- C4 at a URL-encoded black card without its text: one error, status 400, no
insert. -/
theorem handleFormSubmission_rejects_invalid_witness :
    decodesTo invalidRequest ⟨[("carta_blanca", "hola parcero"), ("tipo_carta", "negra")]⟩ ∧
    validateFormData ⟨[("carta_blanca", "hola parcero"), ("tipo_carta", "negra")]⟩ =
      ["carta_negra is required when tipo_carta is 'negra'"] ∧
    (handleFormSubmission invalidRequest sampleEnv).1 =
      validationEnvelope
        (validateFormData ⟨[("carta_blanca", "hola parcero"), ("tipo_carta", "negra")]⟩) ∧
    inserts (handleFormSubmission invalidRequest sampleEnv).2 = [] :=
  ⟨Or.inr ⟨rfl, rfl, _, rfl, rfl⟩, by decide,
    (handleFormSubmission_rejects_invalid invalidRequest sampleEnv).1 _
      (Or.inr ⟨rfl, rfl, _, rfl, rfl⟩) (by decide)⟩

/-- C5, amended. For every request whose decoded field mapping passes validation,
`handleFormSubmission` issues exactly one insert, bound to exactly six parameters
in the column order of the statement: the submitted `tipo_carta`; for each of
`carta_negra`, `carta_blanca`, `contexto` the submitted value when it is non-empty
and `null` when it is absent or empty; the `CF-Connecting-IP` header when present
and not empty, else the `X-Forwarded-For` header when present and not empty, else
"unknown"; the `User-Agent` header when present and not empty, else "unknown". No
parameter is the empty string. -/
theorem handleFormSubmission_inserts_once (request : Request) (env : Env) (formData : FormData)
    (hd : decodesTo request formData) (hv : validateFormData formData = []) :
    inserts (handleFormSubmission request env).2 = [(query, boundParams request formData)] ∧
    (∃ tipo, formData.get "tipo_carta" = some tipo ∧
      boundParams request formData =
        [ .string tipo,
          valueOrNull (formData.get "carta_negra"),
          valueOrNull (formData.get "carta_blanca"),
          valueOrNull (formData.get "contexto"),
          .string (clientIp request),
          .string (clientAgent request) ]) ∧
    (boundParams request formData).length = columns.length ∧
    (∀ p ∈ boundParams request formData, p ≠ .string "") ∧
    query = "\n\t\t\tINSERT INTO form (" ++ ", ".intercalate columns ++
      ")\n\t\t\tVALUES (?, ?, ?, ?, ?, ?)\n\t\t" := by
  obtain ⟨reads, hreads, ha⟩ := submissionAttempt_of_decodesTo request env formData hd
  rw [validateAndInsert_valid request env formData reads hv] at ha
  have htipo : ∃ tipo, formData.get "tipo_carta" = some tipo ∧ tipo ≠ "" := by
    rcases tipo_of_valid formData hv with h | h | h
    · exact ⟨"negra", h, by decide⟩
    · exact ⟨"blanca", h, by decide⟩
    · exact ⟨"ambas", h, by decide⟩
  obtain ⟨tipo, htipo, hne⟩ := htipo
  refine ⟨?_, ⟨tipo, htipo, by simp [boundParams, htipo, fieldValue]⟩, rfl, ?_, rfl⟩
  · cases hdb : env.DB query (boundParams request formData) with
    | error e =>
      rw [hdb] at ha
      rw [handleFormSubmission_of_error request env _ _ ha, inserts_append,
        inserts_reads reads hreads]
      rfl
    | ok result =>
      rw [hdb] at ha
      rw [handleFormSubmission_of_ok request env _ _ ha, inserts_append,
        inserts_reads reads hreads]
      rfl
  · intro p hp
    simp only [boundParams, htipo, fieldValue, List.mem_cons, List.mem_singleton,
      List.not_mem_nil, or_false] at hp
    rcases hp with h | h | h | h | h | h
    · rw [h]; simpa using hne
    · rw [h]; exact valueOrNull_ne_empty _
    · rw [h]; exact valueOrNull_ne_empty _
    · rw [h]; exact valueOrNull_ne_empty _
    · rw [h]; simpa using clientIp_ne_empty request
    · rw [h]; simpa using clientAgent_ne_empty request

/-- C5 at the black card "x": one insert with parameters
("negra", "x", null, null, ip, agent). -/
theorem handleFormSubmission_inserts_once_witness :
    decodesTo sampleRequest sampleForm ∧ validateFormData sampleForm = [] ∧
    boundParams sampleRequest sampleForm =
      [.string "negra", .string "x", .null, .null, .string "203.0.113.7", .string "curl/8.0"] ∧
    inserts (handleFormSubmission sampleRequest sampleEnv).2 =
      [(query, boundParams sampleRequest sampleForm)] :=
  ⟨Or.inl ⟨rfl, rfl⟩, by decide, rfl,
    (handleFormSubmission_inserts_once sampleRequest sampleEnv sampleForm
      (Or.inl ⟨rfl, rfl⟩) (by decide)).1⟩

/-- C5 as stated fails when a header is present but empty: with an empty
`CF-Connecting-IP`, an `X-Forwarded-For` header and an empty `User-Agent`, the
insert binds the forwarded address and "unknown", not the two empty header values. -/
theorem insert_params_if_present_counterexample :
    decodesTo emptyHeadersRequest sampleForm ∧ validateFormData sampleForm = [] ∧
    emptyHeadersRequest.headers.get "CF-Connecting-IP" = some "" ∧
    emptyHeadersRequest.headers.get "User-Agent" = some "" ∧
    inserts (handleFormSubmission emptyHeadersRequest sampleEnv).2 =
      [(query, [.string "negra", .string "x", .null, .null, .string "198.51.100.4",
        .string "unknown"])] ∧
    inserts (handleFormSubmission emptyHeadersRequest sampleEnv).2 ≠
      [(query, [.string "negra", .string "x", .null, .null,
        .string (clientIpIfPresent emptyHeadersRequest),
        .string (clientAgentIfPresent emptyHeadersRequest)])] := by
  refine ⟨Or.inl ⟨rfl, rfl⟩, by decide, rfl, rfl, rfl, ?_⟩
  intro h
  have hcode : inserts (handleFormSubmission emptyHeadersRequest sampleEnv).2 =
      [(query, [.string "negra", .string "x", .null, .null, .string "198.51.100.4",
        .string "unknown"])] := rfl
  have hip : clientIpIfPresent emptyHeadersRequest = "" := rfl
  have hagent : clientAgentIfPresent emptyHeadersRequest = "" := rfl
  rw [hcode, hip, hagent] at h
  simp at h

/-- C6, amended. For every request with a valid submission whose insert succeeds,
the response has status 200 and body `{success: true, message: "¡Gracias parcero! Tu
contribución ha sido recibida.", id: i}`, where `i` is the identifier the database
reported when that identifier is not zero; `id` is `null` exactly when the database
reports no identifier or reports zero. -/
theorem handleFormSubmission_success (request : Request) (env : Env) (formData : FormData)
    (result : D1Result) (hd : decodesTo request formData)
    (hv : validateFormData formData = [])
    (hr : env.DB query (boundParams request formData) = .ok result) :
    (handleFormSubmission request env).1 = successEnvelope (nonZeroId result) ∧
    (∀ i, result.meta.last_row_id = some i → i ≠ 0 → nonZeroId result = .number i) ∧
    (nonZeroId result = .null ↔
      result.meta.last_row_id = none ∨ result.meta.last_row_id = some 0) := by
  obtain ⟨reads, _, ha⟩ := submissionAttempt_of_decodesTo request env formData hd
  rw [validateAndInsert_valid request env formData reads hv, hr] at ha
  refine ⟨by rw [handleFormSubmission_of_ok request env _ _ ha], ?_, ?_⟩
  · intro i hi hne
    simp [nonZeroId, hi, hne]
  · unfold nonZeroId
    cases result.meta.last_row_id with
    | none => simp
    | some i => by_cases hi : i = 0 <;> simp [hi]

/-- C6 at the black card "x" stored as row 7: status 200 with `id: 7`. -/
theorem handleFormSubmission_success_witness :
    decodesTo sampleRequest sampleForm ∧ validateFormData sampleForm = [] ∧
    sampleEnv.DB query (boundParams sampleRequest sampleForm) = .ok ⟨⟨some 7⟩⟩ ∧
    (handleFormSubmission sampleRequest sampleEnv).1 = successEnvelope (.number 7) :=
  ⟨Or.inl ⟨rfl, rfl⟩, by decide, rfl,
    (handleFormSubmission_success sampleRequest sampleEnv sampleForm ⟨⟨some 7⟩⟩
      (Or.inl ⟨rfl, rfl⟩) (by decide) rfl).1⟩

/-- C6 as stated fails when the database reports the identifier 0: the insert
succeeds and an identifier is reported, yet the response carries `id: null`. -/
theorem success_id_zero_counterexample :
    decodesTo sampleRequest sampleForm ∧ validateFormData sampleForm = [] ∧
    zeroIdEnv.DB query (boundParams sampleRequest sampleForm) = .ok ⟨⟨some 0⟩⟩ ∧
    reportedId ⟨⟨some 0⟩⟩ = .number 0 ∧
    (handleFormSubmission sampleRequest zeroIdEnv).1 = successEnvelope .null ∧
    (handleFormSubmission sampleRequest zeroIdEnv).1 ≠
      successEnvelope (reportedId ⟨⟨some 0⟩⟩) := by
  refine ⟨Or.inl ⟨rfl, rfl⟩, by decide, rfl, rfl, rfl, ?_⟩
  intro h
  have hcode : (handleFormSubmission sampleRequest zeroIdEnv).1 = successEnvelope .null := rfl
  have hid : reportedId ⟨⟨some 0⟩⟩ = .number 0 := rfl
  rw [hcode, hid] at h
  simp [successEnvelope] at h

/-- C7 fails on the code. The segment "k=a=b" binds `k` to "a", the text between
the first and the second '=', not to "a=b": `split('=', 2)` splits at every '=' and
keeps the first two pieces. A black card whose text is "1+1=2" is stored as "1 1". -/
theorem parseFormBody_drops_after_second_equals :
    jsSplitLimit "k=a=b" '=' 2 = ["k", "a"] ∧
    parseFormBody "k=a=b" = .ok ⟨[("k", "a")]⟩ ∧
    FormData.get ⟨[("k", "a")]⟩ "k" = some "a" ∧
    FormData.get ⟨[("k", "a")]⟩ "k" ≠ some "a=b" ∧
    parseFormBody "tipo_carta=negra&carta_negra=1+1=2" =
      .ok ⟨[("carta_negra", "1 1"), ("tipo_carta", "negra")]⟩ :=
  ⟨rfl, rfl, rfl, by decide, rfl⟩

/-- C8. For every request whose content-type header is missing or contains
neither "application/json" nor "application/x-www-form-urlencoded", whatever the
body holds, `handleFormSubmission` returns status 400 with body
`{"success":false,"error":"Unsupported content type"}` and performs no effect: the
body is not read and no insert is issued. -/
theorem handleFormSubmission_unsupported (request : Request) (env : Env)
    (h : ∀ v, request.headers.get "content-type" = some v →
      jsIncludes v "application/json" = false ∧
      jsIncludes v "application/x-www-form-urlencoded" = false) :
    handleFormSubmission request env = (errorEnvelope 400 "Unsupported content type", []) ∧
    (∀ now, request.method = "POST" →
      fetch request env now = (errorEnvelope 400 "Unsupported content type", [])) := by
  have hct : jsIncludes (orDefault (request.headers.get "content-type") "") "application/json"
        = false ∧
      jsIncludes (orDefault (request.headers.get "content-type") "")
        "application/x-www-form-urlencoded" = false := by
    cases hg : request.headers.get "content-type" with
    | none => exact ⟨by decide, by decide⟩
    | some v =>
      by_cases hv : v = ""
      · subst hv
        exact ⟨by decide, by decide⟩
      · simpa [orDefault, hv] using h v hg
  have hs : handleFormSubmission request env =
      (errorEnvelope 400 "Unsupported content type", []) := by
    apply handleFormSubmission_of_ok
    simp [submissionAttempt, hct.1, hct.2, createErrorResponse_string]
  refine ⟨hs, ?_⟩
  intro now hm
  simp [fetch, hm, hs]

/-- C8 at content type `text/plain`. -/
theorem handleFormSubmission_unsupported_witness :
    plainTextRequest.headers.get "content-type" = some "text/plain" ∧
    handleFormSubmission plainTextRequest sampleEnv =
      (errorEnvelope 400 "Unsupported content type", []) :=
  ⟨rfl, (handleFormSubmission_unsupported plainTextRequest sampleEnv (by
    intro v hv
    have hg : plainTextRequest.headers.get "content-type" = some "text/plain" := rfl
    rw [hg] at hv
    cases hv
    exact ⟨by decide, by decide⟩)).1⟩

/-- C9. For every request whose method is none of OPTIONS, POST, GET, whatever its
headers and body, `fetch` returns status 405 with body
`{"success":false,"error":"Method not allowed"}` and performs no effect. -/
theorem fetch_method_not_allowed (request : Request) (env : Env) (now : String)
    (ho : request.method ≠ "OPTIONS") (hp : request.method ≠ "POST")
    (hg : request.method ≠ "GET") :
    fetch request env now = (errorEnvelope 405 "Method not allowed", []) := by
  simp [fetch, ho, hp, hg, createErrorResponse_string]

/-- C9 at a `PATCH` request. -/
theorem fetch_method_not_allowed_witness :
    fetch patchRequest sampleEnv "2025-01-01T00:00:00.000Z" =
      (errorEnvelope 405 "Method not allowed", []) :=
  fetch_method_not_allowed patchRequest sampleEnv "2025-01-01T00:00:00.000Z"
    (by decide) (by decide) (by decide)

/-- C10. For every request, a failure raised inside the pipeline with message `m`
(the body failing to decode, or the insert of a valid submission failing) does not
escape: `handleFormSubmission`, and `fetch` on a POST request, return status 500
with body `{success: false, error: "Internal server error: " ++ m}`, which is not a
success envelope. -/
theorem handleFormSubmission_catches (request : Request) (env : Env) (m : String)
    (h : raises request env m) :
    (handleFormSubmission request env).1 =
      errorEnvelope 500 ("Internal server error: " ++ m) ∧
    (∀ now, request.method = "POST" →
      (fetch request env now).1 = errorEnvelope 500 ("Internal server error: " ++ m)) ∧
    (∀ id, (handleFormSubmission request env).1 ≠ successEnvelope id) := by
  have herr := (submissionAttempt_error_iff_raises request env m).mpr h
  have hs : (handleFormSubmission request env).1 =
      errorEnvelope 500 ("Internal server error: " ++ m) := by
    rcases hsa : submissionAttempt request env with ⟨outcome, effects⟩
    rw [hsa] at herr
    simp only at herr
    subst herr
    rw [handleFormSubmission_of_error request env _ _ hsa]
  refine ⟨hs, ?_, ?_⟩
  · intro now hm
    simp [fetch, hm, hs]
  · intro id hid
    rw [hs] at hid
    simp [errorEnvelope, successEnvelope] at hid

/-- C10 at a valid submission whose insert fails. -/
theorem handleFormSubmission_catches_witness :
    raises sampleRequest failingEnv "D1_ERROR: no such table: form" ∧
    (handleFormSubmission sampleRequest failingEnv).1 =
      errorEnvelope 500 "Internal server error: D1_ERROR: no such table: form" :=
  ⟨Or.inr (Or.inr ⟨sampleForm, Or.inl ⟨rfl, rfl⟩, by decide, rfl⟩),
    (handleFormSubmission_catches sampleRequest failingEnv "D1_ERROR: no such table: form"
      (Or.inr (Or.inr ⟨sampleForm, Or.inl ⟨rfl, rfl⟩, by decide, rfl⟩))).1⟩

end FormStoreWorker
